import Mathlib

/-!
Verification of `packages/webdriver/src/utils.js` (webdriverio's WebDriver
client core): session capability negotiation, response classification,
command-surface construction, direct-connect rewriting and error translation.

JavaScript values that the code inspects dynamically are modelled by the
inductive `JSVal` below (JSON values plus `undefined`); JavaScript truthiness,
property access, strict string equality and string coercion are modelled
explicitly.  Code paths that can raise a JavaScript `TypeError` (property or
method access on a value of the wrong shape) are modelled with `Except Unit`.
-/

set_option autoImplicit false

namespace Webdriver

/-- A dynamically typed JavaScript value as handled by the code under
verification: `undefined`, `null`, booleans, numbers (the code only ever
compares them to integer literals, so they are modelled by `Int`), strings,
objects (association lists of fields, insertion-ordered like JS objects) and
arrays. -/
inductive JSVal where
  | undef
  | null
  | bool (b : Bool)
  | num (n : Int)
  | str (s : String)
  | obj (fields : List (String × JSVal))
  | arr (elems : List JSVal)

/-- Build an object value. -/
def jobj (l : List (String × JSVal)) : JSVal := JSVal.obj l

/-- Build an array value. -/
def jarr (l : List JSVal) : JSVal := JSVal.arr l

/-- JavaScript truthiness: `undefined`, `null`, `false`, `0` and `""` are
falsy; objects and arrays are always truthy. -/
def JSVal.truthy : JSVal → Bool
  | .undef => false
  | .null => false
  | .bool b => b
  | .num n => n != 0
  | .str s => s != ""
  | .obj _ => true
  | .arr _ => true

/-- First-match association-list lookup (JS objects have unique keys, so this
agrees with JS property lookup). -/
def lookupField : List (String × JSVal) → String → JSVal
  | [], _ => JSVal.undef
  | (k, v) :: rest, key => if k == key then v else lookupField rest key

/-- JavaScript property access `v.k` on values for which it does not throw:
objects look the field up, other values have no own properties and yield
`undefined`.  (Access on `undefined`/`null` throws in JS; every such access in
the source is either guarded or modelled explicitly at its call site.) -/
def JSVal.get : JSVal → String → JSVal
  | .obj fields, key => lookupField fields key
  | _, _ => JSVal.undef

/-- Whether a value is `undefined` (`typeof v === 'undefined'`). -/
def JSVal.isUndef : JSVal → Bool
  | .undef => true
  | _ => false

/-- Whether a value is `null`. -/
def JSVal.isNull : JSVal → Bool
  | .null => true
  | _ => false

/-- Whether a value is a string (`typeof v === 'string'`). -/
def JSVal.isStr : JSVal → Bool
  | .str _ => true
  | _ => false

/-- `typeof v === 'object'`: true for objects, arrays and `null`. -/
def JSVal.isObjLike : JSVal → Bool
  | .obj _ => true
  | .arr _ => true
  | .null => true
  | _ => false

/-- JavaScript strict equality `v === s` against a string literal. -/
def JSVal.eqStr : JSVal → String → Bool
  | .str s, t => s == t
  | _, _ => false

/-- JavaScript strict equality `v === n` against an integer literal. -/
def JSVal.eqNum : JSVal → Int → Bool
  | .num m, n => m == n
  | _, _ => false

/-! ### String helpers

The JS string methods used by the source (`startsWith`, `includes`,
`toLowerCase`) are modelled on character lists so that all of them reduce in
the kernel. -/

/-- Does the first character list start with the second? -/
def charsStartWith : List Char → List Char → Bool
  | _, [] => true
  | [], _ :: _ => false
  | c :: cs, p :: ps => c == p && charsStartWith cs ps

/-- Does the first character list contain the second as a contiguous
subsequence? -/
def charsContain : List Char → List Char → Bool
  | [], pat => pat.isEmpty
  | s :: rest, pat => charsStartWith (s :: rest) pat || charsContain rest pat

/-- JS `s.startsWith(p)`. -/
def strStartsWith (s p : String) : Bool := charsStartWith s.data p.data

/-- JS `s.includes(p)`. -/
def strContains (s p : String) : Bool := charsContain s.data p.data

/-- ASCII lower-casing of one character (the only fragment of JS
`toLowerCase` the compared literals exercise). -/
def charLower (c : Char) : Char :=
  if 65 ≤ c.toNat && c.toNat ≤ 90 then Char.ofNat (c.toNat + 32) else c

/-- JS `s.toLowerCase()` (ASCII). -/
def strLower (s : String) : String := String.mk (s.data.map charLower)

/-! ### Response classifier (`isSuccessfulResponse`, utils.js lines 78-138) -/

/-- The disjunction of element-missing message shapes tested by the
`body.status === 7` branch of `isSuccessfulResponse`:
starts with `"no such element"` after lower-casing, equals the fixed Appium
message, or starts with `"unable to find element"` after lower-casing. -/
def elementMissingMessage (s : String) : Bool :=
  strStartsWith (strLower s) "no such element" ||
  s == "An element could not be located on the page using the given search parameters." ||
  strStartsWith (strLower s) "unable to find element"

/-- `body.value && (body.value.error || body.value.stackTrace || body.value.stacktrace)`
from `isSuccessfulResponse`. -/
def hasErrorResponse (body : JSVal) : Bool :=
  (body.get "value").truthy &&
    (((body.get "value").get "error").truthy ||
     ((body.get "value").get "stackTrace").truthy ||
     ((body.get "value").get "stacktrace").truthy)

/-- Tail of `isSuccessfulResponse` after the `status === 7` tolerance branch:
the non-zero legacy status check, the 200/404 status-code checks, the error
indicator check and the default. -/
def isSuccessfulResponseTail (statusCode : Int) (body : JSVal) : Bool :=
  -- if (body.status && body.status !== 0) return false
  if (body.get "status").truthy && !((body.get "status").eqNum 0) then false
  -- if (statusCode === 200 && !hasErrorResponse) return true
  else if statusCode == 200 && !(hasErrorResponse body) then true
  -- if (statusCode === 404 && body.value && body.value.error === 'no such element') return true
  else if statusCode == 404 &&
      ((body.get "value").truthy && ((body.get "value").get "error").eqStr "no such element") then true
  -- if (hasErrorResponse) return false
  else if hasErrorResponse body then false
  else true

/-- `isSuccessfulResponse(statusCode, body)` (utils.js lines 78-138).
The result is `Except.error ()` exactly when the JS code raises a
`TypeError`: inside the `body.status === 7` branch the guard
`body.value && body.value.message` lets any truthy `message` through to
`body.value.message.toLowerCase()`, which throws when `message` is not a
string. -/
def isSuccessfulResponse (statusCode : Int) (body : JSVal) : Except Unit Bool :=
  -- if (!body || typeof body.value === 'undefined') return false
  if !body.truthy || (body.get "value").isUndef then Except.ok false
  else if (body.get "status").eqNum 7 &&
      ((body.get "value").truthy && ((body.get "value").get "message").truthy) then
    match (body.get "value").get "message" with
    | JSVal.str s =>
      if elementMissingMessage s then Except.ok true
      else Except.ok (isSuccessfulResponseTail statusCode body)
    | _ => Except.error ()   -- toLowerCase() on a non-string throws
  else Except.ok (isSuccessfulResponseTail statusCode body)

/-- The spec's tri-state classification outcome (section 3,
`ResponseOutcome`). -/
inductive ResponseOutcome where
  | success
  | successElementMissing
  | failure
deriving DecidableEq

/-- Whether an outcome counts as a successful response (the code reports
element-missing tolerance as success, i.e. `true`). -/
def ResponseOutcome.toSuccessBool : ResponseOutcome → Bool
  | .failure => false
  | _ => true

/-- Modelled from the spec, section 4.2, rules 3-7 of the reference
classifier (split out to keep proofs readable). -/
def classifySpecTail (statusCode : Int) (body : JSVal) : ResponseOutcome :=
  -- rule 3: present non-zero legacy status
  if (match body.get "status" with
      | JSVal.num n => n != 0
      | _ => false) then .failure
  -- rule 4: HTTP 200 without error indicator
  else if statusCode == 200 &&
      !(((body.get "value").get "error").truthy ||
        ((body.get "value").get "stackTrace").truthy ||
        ((body.get "value").get "stacktrace").truthy) then .success
  -- rule 5: 404 with the literal "no such element" error
  else if statusCode == 404 && ((body.get "value").get "error").eqStr "no such element" then
    .successElementMissing
  -- rule 6: error indicator present
  else if ((body.get "value").get "error").truthy ||
      ((body.get "value").get "stackTrace").truthy ||
      ((body.get "value").get "stacktrace").truthy then .failure
  -- rule 7: default
  else .success

/-- Modelled from the spec, section 4.2: the 7-rule first-match-wins
reference classifier.  "Present" for the JSON-ish indicator fields is read as
JS-meaningful presence (a truthy value), the legacy `status` field is read as
the numeric legacy status, and the failure message of rule 2 is a string. -/
def classifySpec (statusCode : Int) (body : JSVal) : ResponseOutcome :=
  -- rule 1: body missing or has no value field
  if body.isUndef || body.isNull || (body.get "value").isUndef then .failure
  -- rule 2: legacy status 7 with an element-missing message
  else if (body.get "status").eqNum 7 &&
      (match (body.get "value").get "message" with
       | JSVal.str s => elementMissingMessage s
       | _ => false) then .successElementMissing
  else classifySpecTail statusCode body

/-- The body's legacy `status` field is absent or numeric, as in every legacy
(JSONWire) protocol body. -/
def statusOk (body : JSVal) : Bool :=
  match body.get "status" with
  | JSVal.undef => true
  | JSVal.num _ => true
  | _ => false

/-- The body's `value.message` field, when truthy, is a string, as in every
protocol body (it is the driver's failure message). -/
def msgOk (body : JSVal) : Bool :=
  match (body.get "value").get "message" with
  | JSVal.str _ => true
  | m => !m.truthy

/-! ### Equivalence of the classifier with the reference rules -/

/-- The code's first test (`!body || typeof body.value === 'undefined'`)
coincides with the spec's rule 1 ("body missing or has no `value` field"):
every falsy body is a non-object and hence has no `value` field. -/
theorem rule1_iff (body : JSVal) :
    (!body.truthy || (body.get "value").isUndef) =
      (body.isUndef || body.isNull || (body.get "value").isUndef) := by
  cases body <;> simp [JSVal.truthy, JSVal.get, JSVal.isUndef, JSVal.isNull]

/-- The `body.value &&` guard in `hasErrorResponse` is redundant: a truthy
indicator field forces `body.value` to be an object. -/
theorem hasError_eq (body : JSVal) :
    hasErrorResponse body =
      (((body.get "value").get "error").truthy ||
       ((body.get "value").get "stackTrace").truthy ||
       ((body.get "value").get "stacktrace").truthy) := by
  unfold hasErrorResponse
  cases body.get "value" <;> simp [JSVal.get, JSVal.truthy]

/-- The `body.value &&` guard in the 404 branch is likewise redundant. -/
theorem err404_eq (body : JSVal) :
    ((body.get "value").truthy &&
      ((body.get "value").get "error").eqStr "no such element") =
      ((body.get "value").get "error").eqStr "no such element" := by
  cases body.get "value" <;> simp [JSVal.get, JSVal.truthy, JSVal.eqStr]

/-- For numeric-or-absent legacy statuses, JS truthiness plus the `!== 0`
check is exactly "present and non-zero". -/
theorem r3_eq (body : JSVal) (hst : statusOk body = true) :
    ((body.get "status").truthy && !((body.get "status").eqNum 0)) =
      (match body.get "status" with
       | JSVal.num n => n != 0
       | _ => false) := by
  unfold statusOk at hst
  cases hs : body.get "status" <;> simp_all [JSVal.truthy, JSVal.eqNum]

/-- A value strictly equal to the number `n` is the number `n`. -/
theorem eqNum_num (v : JSVal) (n : Int) (h : v.eqNum n = true) : v = JSVal.num n := by
  cases v <;> simp_all [JSVal.eqNum]

/-- A value with a non-`undefined` property is an object, hence truthy. -/
theorem truthy_of_get (v : JSVal) (k : String) (h : (v.get k).isUndef = false) :
    v.truthy = true := by
  cases v <;> simp_all [JSVal.get, JSVal.truthy, JSVal.isUndef]

/-- The tail of the classifier (rules 3-7) agrees with the reference rules
whenever the legacy status is numeric or absent. -/
theorem tail_eq (sc : Int) (body : JSVal) (hst : statusOk body = true) :
    isSuccessfulResponseTail sc body =
      ResponseOutcome.toSuccessBool (classifySpecTail sc body) := by
  unfold isSuccessfulResponseTail classifySpecTail
  rw [r3_eq body hst, hasError_eq, err404_eq]
  by_cases hA : (match body.get "status" with
                 | JSVal.num n => n != 0
                 | _ => false) = true <;>
    by_cases he : ((body.get "value").get "error").truthy = true <;>
    by_cases hs1 : ((body.get "value").get "stackTrace").truthy = true <;>
    by_cases hs2 : ((body.get "value").get "stacktrace").truthy = true <;>
    by_cases heq : ((body.get "value").get "error").eqStr "no such element" = true <;>
    by_cases h200 : sc = 200 <;>
    by_cases h404 : sc = 404 <;>
    simp_all [ResponseOutcome.toSuccessBool]

/-- The code classifier agrees with the reference classifier on every body
whose legacy status is numeric-or-absent and whose `value.message`, when
truthy, is a string. -/
theorem classifier_equiv (sc : Int) (body : JSVal)
    (hst : statusOk body = true) (hmsg : msgOk body = true) :
    isSuccessfulResponse sc body = Except.ok ((classifySpec sc body).toSuccessBool) := by
  by_cases h1 : (body.isUndef || body.isNull || (body.get "value").isUndef) = true
  · unfold isSuccessfulResponse classifySpec
    rw [rule1_iff]
    simp [h1, ResponseOutcome.toSuccessBool]
  · rw [Bool.not_eq_true] at h1
    by_cases h7 : (body.get "status").eqNum 7 = true
    · by_cases hmt : ((body.get "value").get "message").truthy = true
      · -- truthy message: `msgOk` forces it to be a string
        obtain ⟨s, hm⟩ : ∃ s, (body.get "value").get "message" = JSVal.str s := by
          unfold msgOk at hmsg
          cases hmm : (body.get "value").get "message" <;>
            simp_all [JSVal.truthy]
        have hvt : (body.get "value").truthy = true :=
          truthy_of_get _ "message" (by rw [hm]; rfl)
        have hmt' : (JSVal.str s).truthy = true := by rw [← hm]; exact hmt
        by_cases hem : elementMissingMessage s = true
        · unfold isSuccessfulResponse classifySpec
          rw [rule1_iff]
          simp [h1, h7, hm, hvt, hmt', hem, ResponseOutcome.toSuccessBool]
        · rw [Bool.not_eq_true] at hem
          unfold isSuccessfulResponse classifySpec
          rw [rule1_iff]
          simp [h1, h7, hm, hvt, hmt', hem, tail_eq sc body hst]
      · -- falsy message: neither rule 2 branch fires
        rw [Bool.not_eq_true] at hmt
        have hX : (match (body.get "value").get "message" with
                   | JSVal.str s => elementMissingMessage s
                   | _ => false) = false := by
          cases hmm : (body.get "value").get "message"
          case str s =>
            have hse : s = "" := by
              rw [hmm] at hmt
              simpa [JSVal.truthy] using hmt
            subst hse
            rfl
          all_goals rfl
        unfold isSuccessfulResponse classifySpec
        rw [rule1_iff]
        simp [h1, hmt, hX, tail_eq sc body hst]
    · -- status is not the literal 7
      unfold isSuccessfulResponse classifySpec
      rw [rule1_iff]
      simp [h1, h7, tail_eq sc body hst]

/-- Whether a fallible computation produced an outcome (rather than raising). -/
def isOutcome {ε α : Type} : Except ε α → Bool
  | .ok _ => true
  | .error _ => false

/-- C1: for every statusCode and every protocol body (legacy status
numeric-or-absent, `value.message` a string whenever truthy),
`isSuccessfulResponse` returns exactly the verdict of the 7-rule
first-match-wins reference classifier of spec section 4.2, with the two
element-missing tolerance rules counted as success; in particular a 404
whose `value.error` is not `"no such element"` fails rather than succeeds. -/
theorem c1_classifier_matches_reference (sc : Int) (body : JSVal)
    (hst : statusOk body = true) (hmsg : msgOk body = true) :
    isSuccessfulResponse sc body = Except.ok ((classifySpec sc body).toSuccessBool) ∧
    isSuccessfulResponse 404 (jobj [("value", jobj [("error", JSVal.str "bad request")])]) =
      Except.ok false :=
  ⟨classifier_equiv sc body hst hmsg, rfl⟩

/-- Witness for C1 at statusCode 404 and a body carrying a non-element
error. -/
theorem c1_classifier_matches_reference_witness :
    statusOk (jobj [("value", jobj [("error", JSVal.str "boom")])]) = true ∧
    msgOk (jobj [("value", jobj [("error", JSVal.str "boom")])]) = true ∧
    (isSuccessfulResponse 404 (jobj [("value", jobj [("error", JSVal.str "boom")])]) =
        Except.ok
          ((classifySpec 404 (jobj [("value", jobj [("error", JSVal.str "boom")])])).toSuccessBool) ∧
      isSuccessfulResponse 404 (jobj [("value", jobj [("error", JSVal.str "bad request")])]) =
        Except.ok false) :=
  ⟨rfl, rfl,
    c1_classifier_matches_reference 404 (jobj [("value", jobj [("error", JSVal.str "boom")])])
      rfl rfl⟩

/-- C8 counterexample: the classifier is not total on arbitrary bodies.  On
`{status: 7, value: {message: 1}}` the guard `body.value && body.value.message`
passes (1 is truthy) and `body.value.message.toLowerCase()` raises a
`TypeError`, so the code throws instead of returning an outcome. -/
theorem c8_counterexample :
    isSuccessfulResponse 200
        (jobj [("status", JSVal.num 7), ("value", jobj [("message", JSVal.num 1)])]) =
      Except.error () := rfl

/-- C8 amended: the classifier returns an outcome (never raises) on every
body whose `value.message`, when truthy, is a string; the only raising
inputs are bodies with legacy status 7 and a truthy non-string message. -/
theorem c8_classifier_total_on_string_messages (sc : Int) (body : JSVal)
    (hmsg : msgOk body = true) :
    isOutcome (isSuccessfulResponse sc body) = true := by
  by_cases hg : ((body.get "status").eqNum 7 &&
      ((body.get "value").truthy && ((body.get "value").get "message").truthy)) = true
  · have hmt : ((body.get "value").get "message").truthy = true := by
      have hg' := hg
      rw [Bool.and_eq_true, Bool.and_eq_true] at hg'
      exact hg'.2.2
    obtain ⟨s, hm⟩ : ∃ s, (body.get "value").get "message" = JSVal.str s := by
      unfold msgOk at hmsg
      cases hmm : (body.get "value").get "message" <;> simp_all [JSVal.truthy]
    unfold isSuccessfulResponse
    rw [hm]
    repeat' split
    all_goals rfl
  · rw [Bool.not_eq_true] at hg
    unfold isSuccessfulResponse
    rw [hg]
    split <;> rfl

/-- Witness for the amended C8 on an empty-object body. -/
theorem c8_classifier_total_on_string_messages_witness :
    msgOk (jobj []) = true ∧ isOutcome (isSuccessfulResponse 200 (jobj [])) = true :=
  ⟨rfl, c8_classifier_total_on_string_messages 200 (jobj []) rfl⟩

/-! ### Capability negotiation (`startWebDriverSession`, utils.js lines 30-38) -/

/-- The capability-style dispatch of `startWebDriverSession` (utils.js lines
30-38): returns the pair `(w3cCaps, jsonwpCaps)`.  The code tests
`params.capabilities && params.capabilities.alwaysMatch` (JS truthiness). -/
def negotiate (caps : JSVal) : JSVal × JSVal :=
  if caps.truthy && (caps.get "alwaysMatch").truthy then
    (caps, caps.get "alwaysMatch")
  else
    (jobj [("alwaysMatch", caps), ("firstMatch", jarr [jobj []])], caps)

/-- Modelled from the spec, section 4.1: if the input has an `alwaysMatch`
field the structured form is the input unchanged and the legacy form is its
`alwaysMatch` sub-object; otherwise the structured form wraps the input and
the legacy form is the input unchanged. -/
def negotiateSpec (caps : JSVal) : JSVal × JSVal :=
  if !(caps.get "alwaysMatch").isUndef then
    (caps, caps.get "alwaysMatch")
  else
    (jobj [("alwaysMatch", caps), ("firstMatch", jarr [jobj []])], caps)

/-- The `alwaysMatch` field of the requested capabilities, when present, is a
meaningful (truthy) value — in practice a capability object. -/
def alwaysMatchOk (caps : JSVal) : Bool :=
  (caps.get "alwaysMatch").isUndef || (caps.get "alwaysMatch").truthy

/-- C2: on every requested-capabilities input whose `alwaysMatch` field, when
present, is a meaningful (truthy) value, the session-creation payload carries
exactly the dual forms of spec section 4.1. -/
theorem c2_negotiate_dual_forms (caps : JSVal) (h : alwaysMatchOk caps = true) :
    negotiate caps = negotiateSpec caps := by
  unfold alwaysMatchOk at h
  unfold negotiate negotiateSpec
  by_cases ha : ((caps.get "alwaysMatch").truthy) = true
  · have hu : (caps.get "alwaysMatch").isUndef = false := by
      cases hv : caps.get "alwaysMatch" <;> simp_all [JSVal.truthy, JSVal.isUndef]
    have hc : caps.truthy = true := by
      refine truthy_of_get caps "alwaysMatch" ?_
      exact hu
    simp [ha, hu, hc]
  · rw [Bool.not_eq_true] at ha
    have hu : (caps.get "alwaysMatch").isUndef = true := by
      cases hi : (caps.get "alwaysMatch").isUndef
      · exfalso
        rw [hi, ha] at h
        simp at h
      · rfl
    simp [ha, hu]

/-- Witness for C2 on `{browserName: "chrome"}` (spec section 8 scenario). -/
theorem c2_negotiate_dual_forms_witness :
    alwaysMatchOk (jobj [("browserName", JSVal.str "chrome")]) = true ∧
    negotiate (jobj [("browserName", JSVal.str "chrome")]) =
      negotiateSpec (jobj [("browserName", JSVal.str "chrome")]) :=
  ⟨rfl, c2_negotiate_dual_forms (jobj [("browserName", JSVal.str "chrome")]) rfl⟩

/-! ### Session response extraction (`startWebDriverSession`, lines 57 and 68) -/

/-- Line 57, `response.value.sessionId || response.sessionId`: property access
on `undefined`/`null` (`response` itself or `response.value`) throws. -/
def extractSessionId (response : JSVal) : Except Unit JSVal :=
  if response.isUndef || response.isNull then Except.error ()
  else if (response.get "value").isUndef || (response.get "value").isNull then Except.error ()
  else if ((response.get "value").get "sessionId").truthy then
    Except.ok ((response.get "value").get "sessionId")
  else Except.ok (response.get "sessionId")

/-- Line 68, `response.value.capabilities || response.value` (evaluated only
after line 57 succeeded, so no further throw is possible). -/
def extractCapabilities (response : JSVal) : JSVal :=
  if ((response.get "value").get "capabilities").truthy then
    (response.get "value").get "capabilities"
  else response.get "value"

/-- C4: extraction of the resolved session identifier and capabilities is
invariant across the two server envelopes.  `wrapped` is the structured
envelope `{value: {sessionId, capabilities}}`; `legacy` is the flat envelope
`{sessionId, value: caps}` of the JSONWire protocol (whose `value` carries
the capabilities themselves and no `sessionId`/`capabilities` fields). -/
theorem c4_session_extraction_envelope_invariant
    (sid : String) (cfs : List (String × JSVal))
    (hs : sid ≠ "")
    (h1 : ((JSVal.obj cfs).get "sessionId").truthy = false)
    (h2 : ((JSVal.obj cfs).get "capabilities").truthy = false) :
    extractSessionId
        (jobj [("value", jobj [("sessionId", JSVal.str sid), ("capabilities", JSVal.obj cfs)])]) =
      Except.ok (JSVal.str sid) ∧
    extractSessionId (jobj [("sessionId", JSVal.str sid), ("value", JSVal.obj cfs)]) =
      Except.ok (JSVal.str sid) ∧
    extractCapabilities
        (jobj [("value", jobj [("sessionId", JSVal.str sid), ("capabilities", JSVal.obj cfs)])]) =
      JSVal.obj cfs ∧
    extractCapabilities (jobj [("sessionId", JSVal.str sid), ("value", JSVal.obj cfs)]) =
      JSVal.obj cfs := by
  have h1' : (lookupField cfs "sessionId").truthy = false := by
    simpa [JSVal.get] using h1
  have h2' : (lookupField cfs "capabilities").truthy = false := by
    simpa [JSVal.get] using h2
  refine ⟨?_, ?_, ?_, ?_⟩
  · simp [extractSessionId, jobj, JSVal.get, lookupField, JSVal.isUndef, JSVal.isNull,
      JSVal.truthy, hs]
  · simp [extractSessionId, jobj, JSVal.get, lookupField, JSVal.isUndef, JSVal.isNull, h1']
  · simp [extractCapabilities, jobj, JSVal.get, lookupField, JSVal.truthy]
  · simp [extractCapabilities, jobj, JSVal.get, lookupField, h2']

/-- Witness for C4 with the session id `"abc123"` and capabilities
`{browserName: "chrome"}` (spec section 8 scenario). -/
theorem c4_session_extraction_envelope_invariant_witness :
    ("abc123" : String) ≠ "" ∧
    ((JSVal.obj [("browserName", JSVal.str "chrome")]).get "sessionId").truthy = false ∧
    ((JSVal.obj [("browserName", JSVal.str "chrome")]).get "capabilities").truthy = false ∧
    (extractSessionId
        (jobj [("value",
          jobj [("sessionId", JSVal.str "abc123"),
            ("capabilities", JSVal.obj [("browserName", JSVal.str "chrome")])])]) =
      Except.ok (JSVal.str "abc123") ∧
    extractSessionId
        (jobj [("sessionId", JSVal.str "abc123"),
          ("value", JSVal.obj [("browserName", JSVal.str "chrome")])]) =
      Except.ok (JSVal.str "abc123") ∧
    extractCapabilities
        (jobj [("value",
          jobj [("sessionId", JSVal.str "abc123"),
            ("capabilities", JSVal.obj [("browserName", JSVal.str "chrome")])])]) =
      JSVal.obj [("browserName", JSVal.str "chrome")] ∧
    extractCapabilities
        (jobj [("sessionId", JSVal.str "abc123"),
          ("value", JSVal.obj [("browserName", JSVal.str "chrome")])]) =
      JSVal.obj [("browserName", JSVal.str "chrome")]) :=
  ⟨by decide, rfl, rfl,
    c4_session_extraction_envelope_invariant "abc123" [("browserName", JSVal.str "chrome")]
      (by decide) rfl rfl⟩

/-! ### String coercion for template literals -/

/-- One decimal digit as a string. -/
def digitToString (d : Nat) : String := String.singleton (Char.ofNat (48 + d))

/-- Decimal digits of a natural number, fuelled so that it reduces in the
kernel (the fuel `n + 1` bounds the digit count). -/
def natDisplayF : Nat → Nat → String
  | 0, _ => ""
  | f + 1, n => if n < 10 then digitToString n else natDisplayF f (n / 10) ++ digitToString (n % 10)

/-- Decimal rendering of a natural number. -/
def natDisplay (n : Nat) : String := natDisplayF (n + 1) n

/-- Decimal rendering of an integer (JS `String(number)` for integral
values). -/
def intDisplay : Int → String
  | .ofNat m => natDisplay m
  | .negSucc m => "-" ++ natDisplay (m + 1)

mutual

/-- JS string coercion `String(v)` / template-literal interpolation (array
elements are joined with `","`, with `null`/`undefined` elements rendered
empty, as JS `Array.prototype.toString` does). -/
def JSVal.display : JSVal → String
  | .undef => "undefined"
  | .null => "null"
  | .bool true => "true"
  | .bool false => "false"
  | .num n => intDisplay n
  | .str s => s
  | .obj _ => "[object Object]"
  | .arr elems => String.intercalate "," (displayElems elems)

/-- Rendered elements of an array being coerced to a string. -/
def displayElems : List JSVal → List String
  | [] => []
  | .undef :: rest => "" :: displayElems rest
  | .null :: rest => "" :: displayElems rest
  | v :: rest => JSVal.display v :: displayElems rest

end

/-! ### Session parameters and the error translator (`getSessionError`,
utils.js lines 259-303) -/

/-- The caller-visible session parameters object: connection fields plus the
recorded capabilities.  Only the fields read or written by the code under
verification are modelled. -/
structure SessionParams where
  capabilities : JSVal
  requestedCapabilities : JSVal
  protocol : JSVal
  hostname : JSVal
  port : JSVal
  path : JSVal

/-- A transport-level error: its `code` property (compared against
`'ECONNREFUSED'`) and its `message` string (JS `Error.message` is always a
string, `""` when unset). -/
structure TransportError where
  code : JSVal
  message : String

/-- `BROWSER_DRIVER_ERRORS` (utils.js lines 13-18). -/
def BROWSER_DRIVER_ERRORS : List String :=
  ["unknown command: wd/hub/session",
   "HTTP method not allowed",
   "'POST /wd/hub/session' was not found.",
   "Command not found"]

/-- The shared W3C-capability guidance suffix (utils.js lines 289-290). -/
def w3cCapMessage : String :=
  "\nMake sure to add vendor prefix like \"goog:\", \"appium:\", \"moz:\", etc to non W3C capabilities." ++
  "\nSee more https://www.w3.org/TR/webdriver/#capabilities"

/-- `getSessionError(err, params)` (utils.js lines 259-303). -/
def getSessionError (err : TransportError) (params : SessionParams) : String :=
  -- browser driver / service is not started
  if err.code.eqStr "ECONNREFUSED" then
    "Unable to connect to \"" ++ params.protocol.display ++ "://" ++
      params.hostname.display ++ ":" ++ params.port.display ++ params.path.display ++
      "\", make sure browser driver is running on that address." ++
      "\nIf you use services like chromedriver see initialiseServices logs above or in wdio.log file as the service might had problems to start the driver."
  else if err.message == "unhandled request" then
    "The browser driver couldn't start the session. Make sure you have set the \"path\" correctly!"
  else if err.message == "" then
    "See wdio.* logs for more information."
  -- wrong path: selenium-standalone
  else if strContains err.message "Whoops! The URL specified routes to this help page." then
    "It seems you are running a Selenium Standalone server and point to a wrong path. Please set `path: '/wd/hub'` in your wdio.conf.js!"
  -- wrong path: chromedriver, geckodriver, etc
  else if BROWSER_DRIVER_ERRORS.any (fun m => strContains err.message m) then
    "Make sure to set `path: '/'` in your wdio.conf.js!"
  -- edge driver on localhost
  else if strContains err.message "Bad Request - Invalid Hostname" &&
      strContains err.message "HTTP Error 400" then
    "Run edge driver on 127.0.0.1 instead of localhost, ex: --host=127.0.0.1, or set `hostname: 'localhost'` in your wdio.conf.js"
  -- illegal w3c capability passed to selenium standalone
  else if strContains err.message "Illegal key values seen in w3c capabilities" then
    err.message ++ w3cCapMessage
  -- wrong host/port, port in use, illegal w3c capability passed to selenium grid
  else if err.message == "Response has empty body" then
    "Make sure to connect to valid hostname:port or the port is not in use." ++
      "\nIf you use a grid server " ++ w3cCapMessage
  else err.message

/-- Modelled from the spec, section 4.3: the prioritized translation rule
table of `toDiagnostic`, an ordered list of (predicate, message) pairs. -/
def sessionErrorRules : List ((TransportError → Bool) × (TransportError → SessionParams → String)) :=
  [(fun e => e.code.eqStr "ECONNREFUSED",
    fun _ p =>
      "Unable to connect to \"" ++ p.protocol.display ++ "://" ++
        p.hostname.display ++ ":" ++ p.port.display ++ p.path.display ++
        "\", make sure browser driver is running on that address." ++
        "\nIf you use services like chromedriver see initialiseServices logs above or in wdio.log file as the service might had problems to start the driver."),
   (fun e => e.message == "unhandled request",
    fun _ _ =>
      "The browser driver couldn't start the session. Make sure you have set the \"path\" correctly!"),
   (fun e => e.message == "",
    fun _ _ => "See wdio.* logs for more information."),
   (fun e => strContains e.message "Whoops! The URL specified routes to this help page.",
    fun _ _ =>
      "It seems you are running a Selenium Standalone server and point to a wrong path. Please set `path: '/wd/hub'` in your wdio.conf.js!"),
   (fun e => BROWSER_DRIVER_ERRORS.any (fun m => strContains e.message m),
    fun _ _ => "Make sure to set `path: '/'` in your wdio.conf.js!"),
   (fun e => strContains e.message "Bad Request - Invalid Hostname" &&
      strContains e.message "HTTP Error 400",
    fun _ _ =>
      "Run edge driver on 127.0.0.1 instead of localhost, ex: --host=127.0.0.1, or set `hostname: 'localhost'` in your wdio.conf.js"),
   (fun e => strContains e.message "Illegal key values seen in w3c capabilities",
    fun e _ => e.message ++ w3cCapMessage),
   (fun e => e.message == "Response has empty body",
    fun _ _ =>
      "Make sure to connect to valid hostname:port or the port is not in use." ++
        "\nIf you use a grid server " ++ w3cCapMessage)]

/-- First-match-wins evaluation of a translation rule table. -/
def firstRuleMatch :
    List ((TransportError → Bool) × (TransportError → SessionParams → String)) →
      TransportError → SessionParams → Option String
  | [], _, _ => none
  | (p, o) :: rest, e, pr => if p e then some (o e pr) else firstRuleMatch rest e pr

/-- Modelled from the spec, section 4.3: `toDiagnostic` returns the first
matching rule's guidance, else the raw transport message unchanged. -/
def toDiagnosticSpec (e : TransportError) (pr : SessionParams) : String :=
  (firstRuleMatch sessionErrorRules e pr).getD e.message

/-- C10: the error translator tests its rules in the stated priority order
with first match wins, and on a connection-refused error with connection
params `{protocol: "http", hostname: "localhost", port: 9515, path: "/"}`
its message contains the literal substring `"http://localhost:9515/"`. -/
theorem c10_diagnostic_rule_order (e : TransportError) (pr : SessionParams) :
    getSessionError e pr = toDiagnosticSpec e pr ∧
    strContains
        (getSessionError
          { code := JSVal.str "ECONNREFUSED",
            message := "connect ECONNREFUSED 127.0.0.1:9515" }
          { capabilities := jobj [], requestedCapabilities := JSVal.undef,
            protocol := JSVal.str "http", hostname := JSVal.str "localhost",
            port := JSVal.num 9515, path := JSVal.str "/" })
        "http://localhost:9515/" = true := by
  constructor
  · unfold getSessionError toDiagnosticSpec sessionErrorRules
    simp only [firstRuleMatch]
    repeat' split
    all_goals simp_all
  · rfl

/-! ### Session lifecycle (`startWebDriverSession`, utils.js lines 23-71) -/

/-- How `startWebDriverSession` can fail: a wrapped session-creation failure
(transport error path, lines 52-56) or an unwrapped JS `TypeError` from the
session-id extraction on a malformed response (line 57). -/
inductive SessionError where
  | failed (msg : String)
  | typeErr

/-- `startWebDriverSession(params)` (utils.js lines 23-71).  The transport
call `sessionRequest.makeRequest(params)` is an external collaborator and is
passed in as its outcome: either a transport error or the decoded response
body.  The returned pair carries the function result and the caller-visible
`params` object after the call (the code mutates it in place). -/
def startWebDriverSession (params : SessionParams)
    (transport : Except TransportError JSVal) :
    Except SessionError JSVal × SessionParams :=
  let w3cCaps := (negotiate params.capabilities).1
  let jsonwpCaps := (negotiate params.capabilities).2
  match transport with
  | .error err =>
    (Except.error (.failed ("Failed to create session.\n" ++ getSessionError err params)),
     params)
  | .ok response =>
    match extractSessionId response with
    | .error _ => (Except.error .typeErr, params)
    | .ok sid =>
      (Except.ok sid,
       { params with
         requestedCapabilities := jobj [("w3cCaps", w3cCaps), ("jsonwpCaps", jsonwpCaps)],
         capabilities := extractCapabilities response })

/-- C6: session creation is atomic on the caller-visible params object.  On a
transport error the params are untouched and the raised error's message is
exactly the diagnostic prefixed with `"Failed to create session.\n"`; on any
non-ok outcome the params are untouched; the dual-form request and the
resolved capabilities are recorded exactly when the call returns a session
id. -/
theorem c6_session_creation_atomic (params : SessionParams) (err : TransportError)
    (respFail respOk : JSVal)
    (hfail : isOutcome (extractSessionId respFail) = false)
    (hok : isOutcome (extractSessionId respOk) = true) :
    startWebDriverSession params (Except.error err) =
      (Except.error
        (SessionError.failed ("Failed to create session.\n" ++ getSessionError err params)),
       params) ∧
    (startWebDriverSession params (Except.ok respFail)).2 = params ∧
    (startWebDriverSession params (Except.ok respOk)).2 =
      { params with
        requestedCapabilities :=
          jobj [("w3cCaps", (negotiate params.capabilities).1),
                ("jsonwpCaps", (negotiate params.capabilities).2)],
        capabilities := extractCapabilities respOk } := by
  have hf : extractSessionId respFail = Except.error () := by
    cases hE : extractSessionId respFail with
    | error u => cases u; rfl
    | ok v => rw [hE] at hfail; simp [isOutcome] at hfail
  obtain ⟨sid, ho⟩ : ∃ sid, extractSessionId respOk = Except.ok sid := by
    cases hE : extractSessionId respOk with
    | error u => rw [hE] at hok; simp [isOutcome] at hok
    | ok v => exact ⟨v, rfl⟩
  refine ⟨rfl, ?_, ?_⟩ <;> simp [startWebDriverSession, hf, ho]

/-- Witness for C6: a transport failure, a malformed response (no `value`)
and a well-formed structured response. -/
theorem c6_session_creation_atomic_witness :
    isOutcome (extractSessionId (jobj [])) = false ∧
    isOutcome (extractSessionId (jobj [("value", jobj [("sessionId", JSVal.str "abc")])])) = true ∧
    (startWebDriverSession
        { capabilities := jobj [("browserName", JSVal.str "chrome")],
          requestedCapabilities := JSVal.undef, protocol := JSVal.str "http",
          hostname := JSVal.str "localhost", port := JSVal.num 4444, path := JSVal.str "/" }
        (Except.error { code := JSVal.undef, message := "boom" }) =
      (Except.error
        (SessionError.failed
          ("Failed to create session.\n" ++
            getSessionError { code := JSVal.undef, message := "boom" }
              { capabilities := jobj [("browserName", JSVal.str "chrome")],
                requestedCapabilities := JSVal.undef, protocol := JSVal.str "http",
                hostname := JSVal.str "localhost", port := JSVal.num 4444,
                path := JSVal.str "/" })),
       { capabilities := jobj [("browserName", JSVal.str "chrome")],
         requestedCapabilities := JSVal.undef, protocol := JSVal.str "http",
         hostname := JSVal.str "localhost", port := JSVal.num 4444, path := JSVal.str "/" }) ∧
    (startWebDriverSession
        { capabilities := jobj [("browserName", JSVal.str "chrome")],
          requestedCapabilities := JSVal.undef, protocol := JSVal.str "http",
          hostname := JSVal.str "localhost", port := JSVal.num 4444, path := JSVal.str "/" }
        (Except.ok (jobj []))).2 =
      { capabilities := jobj [("browserName", JSVal.str "chrome")],
        requestedCapabilities := JSVal.undef, protocol := JSVal.str "http",
        hostname := JSVal.str "localhost", port := JSVal.num 4444, path := JSVal.str "/" } ∧
    (startWebDriverSession
        { capabilities := jobj [("browserName", JSVal.str "chrome")],
          requestedCapabilities := JSVal.undef, protocol := JSVal.str "http",
          hostname := JSVal.str "localhost", port := JSVal.num 4444, path := JSVal.str "/" }
        (Except.ok (jobj [("value", jobj [("sessionId", JSVal.str "abc")])]))).2 =
      { capabilities :=
          extractCapabilities (jobj [("value", jobj [("sessionId", JSVal.str "abc")])]),
        requestedCapabilities :=
          jobj [("w3cCaps",
            (negotiate (jobj [("browserName", JSVal.str "chrome")])).1),
            ("jsonwpCaps", (negotiate (jobj [("browserName", JSVal.str "chrome")])).2)],
        protocol := JSVal.str "http", hostname := JSVal.str "localhost",
        port := JSVal.num 4444, path := JSVal.str "/" }) :=
  ⟨rfl, rfl,
    c6_session_creation_atomic
      { capabilities := jobj [("browserName", JSVal.str "chrome")],
        requestedCapabilities := JSVal.undef, protocol := JSVal.str "http",
        hostname := JSVal.str "localhost", port := JSVal.num 4444, path := JSVal.str "/" }
      { code := JSVal.undef, message := "boom" }
      (jobj []) (jobj [("value", jobj [("sessionId", JSVal.str "abc")])]) rfl rfl⟩

/-! ### Direct-connect rewrite (`setupDirectConnect`, utils.js lines 240-253) -/

/-- `setupDirectConnect(params)` (utils.js lines 240-253).  Destructures the
four `directConnect*` fields from `params.capabilities` (an object by the
time this is called, right after a successful session start) and, when the
guard passes, overwrites the four connection parameters in place. -/
def setupDirectConnect (params : SessionParams) : SessionParams :=
  if (params.capabilities.get "directConnectProtocol").truthy &&
      (params.capabilities.get "directConnectHost").truthy &&
      (params.capabilities.get "directConnectPort").truthy &&
      ((params.capabilities.get "directConnectPath").truthy ||
        (params.capabilities.get "directConnectPath").eqStr "") then
    { params with
      protocol := params.capabilities.get "directConnectProtocol",
      hostname := params.capabilities.get "directConnectHost",
      port := params.capabilities.get "directConnectPort",
      path := params.capabilities.get "directConnectPath" }
  else params

/-- A redirect field (protocol/host/port) is absent or a meaningful (truthy)
value, as in every real capability set. -/
def dcOk (v : JSVal) : Bool := v.isUndef || v.truthy

/-- The redirect path is absent or a string (possibly empty). -/
def dcPathOk (v : JSVal) : Bool := v.isUndef || v.isStr

/-- Under `dcOk`, JS truthiness of a redirect field is exactly presence. -/
theorem dcOk_truthy (v : JSVal) (h : dcOk v = true) : v.truthy = !v.isUndef := by
  cases v <;> simp_all [dcOk, JSVal.truthy, JSVal.isUndef]

/-- Under `dcPathOk`, the code's `path || path === ''` test is exactly
presence. -/
theorem dcPathOk_truthy (v : JSVal) (h : dcPathOk v = true) :
    (v.truthy || v.eqStr "") = !v.isUndef := by
  cases v with
  | str s => by_cases hs : s = "" <;> simp_all [JSVal.truthy, JSVal.eqStr, JSVal.isUndef]
  | _ => simp_all [dcPathOk, JSVal.truthy, JSVal.eqStr, JSVal.isUndef, JSVal.isStr]

/-- C7: the direct-connect rewrite fires exactly when all four redirect
fields are present (path possibly the empty string), in which case it
overwrites precisely the four connection parameters with those values;
otherwise every field of the params object is left unchanged.  Quantified
over capability sets whose redirect fields are well-formed (`dcOk`,
`dcPathOk`). -/
theorem c7_direct_connect_rewrite (params : SessionParams)
    (h1 : dcOk (params.capabilities.get "directConnectProtocol") = true)
    (h2 : dcOk (params.capabilities.get "directConnectHost") = true)
    (h3 : dcOk (params.capabilities.get "directConnectPort") = true)
    (h4 : dcPathOk (params.capabilities.get "directConnectPath") = true) :
    setupDirectConnect params =
      (if !(params.capabilities.get "directConnectProtocol").isUndef &&
          !(params.capabilities.get "directConnectHost").isUndef &&
          !(params.capabilities.get "directConnectPort").isUndef &&
          !(params.capabilities.get "directConnectPath").isUndef then
        { params with
          protocol := params.capabilities.get "directConnectProtocol",
          hostname := params.capabilities.get "directConnectHost",
          port := params.capabilities.get "directConnectPort",
          path := params.capabilities.get "directConnectPath" }
      else params) := by
  unfold setupDirectConnect
  rw [dcOk_truthy _ h1, dcOk_truthy _ h2, dcOk_truthy _ h3, dcPathOk_truthy _ h4]

/-- Witness for C7: all four redirect fields present with an empty path. -/
theorem c7_direct_connect_rewrite_witness :
    dcOk ((jobj [("directConnectProtocol", JSVal.str "https"),
      ("directConnectHost", JSVal.str "appium.example"),
      ("directConnectPort", JSVal.num 443),
      ("directConnectPath", JSVal.str "")]).get "directConnectProtocol") = true ∧
    dcOk ((jobj [("directConnectProtocol", JSVal.str "https"),
      ("directConnectHost", JSVal.str "appium.example"),
      ("directConnectPort", JSVal.num 443),
      ("directConnectPath", JSVal.str "")]).get "directConnectHost") = true ∧
    dcOk ((jobj [("directConnectProtocol", JSVal.str "https"),
      ("directConnectHost", JSVal.str "appium.example"),
      ("directConnectPort", JSVal.num 443),
      ("directConnectPath", JSVal.str "")]).get "directConnectPort") = true ∧
    dcPathOk ((jobj [("directConnectProtocol", JSVal.str "https"),
      ("directConnectHost", JSVal.str "appium.example"),
      ("directConnectPort", JSVal.num 443),
      ("directConnectPath", JSVal.str "")]).get "directConnectPath") = true ∧
    setupDirectConnect
        { capabilities := jobj [("directConnectProtocol", JSVal.str "https"),
            ("directConnectHost", JSVal.str "appium.example"),
            ("directConnectPort", JSVal.num 443),
            ("directConnectPath", JSVal.str "")],
          requestedCapabilities := JSVal.undef, protocol := JSVal.str "http",
          hostname := JSVal.str "localhost", port := JSVal.num 4444,
          path := JSVal.str "/" } =
      { capabilities := jobj [("directConnectProtocol", JSVal.str "https"),
          ("directConnectHost", JSVal.str "appium.example"),
          ("directConnectPort", JSVal.num 443),
          ("directConnectPath", JSVal.str "")],
        requestedCapabilities := JSVal.undef, protocol := JSVal.str "https",
        hostname := JSVal.str "appium.example", port := JSVal.num 443,
        path := JSVal.str "" } := by
  refine ⟨rfl, rfl, rfl, rfl, ?_⟩
  have h := c7_direct_connect_rewrite
    { capabilities := jobj [("directConnectProtocol", JSVal.str "https"),
        ("directConnectHost", JSVal.str "appium.example"),
        ("directConnectPort", JSVal.num 443),
        ("directConnectPath", JSVal.str "")],
      requestedCapabilities := JSVal.undef, protocol := JSVal.str "http",
      hostname := JSVal.str "localhost", port := JSVal.num 4444,
      path := JSVal.str "/" } rfl rfl rfl rfl
  exact h.trans (by rfl)

/-! ### Response-body error translation (`getErrorFromResponseBody` and
`CustomRequestError`, utils.js lines 187-214) -/

/-- The observable content of a constructed JS error: its `message` string
and its `name` when the code sets one (the spec's "kind tag"; `none` means
the default `Error` name is kept). -/
structure StructuredError where
  message : String
  kind : Option JSVal

/-- `errorObj = body.value || body` from the `CustomRequestError`
constructor. -/
def errorObjOf (body : JSVal) : JSVal :=
  if (body.get "value").truthy then body.get "value" else body

/-- `new CustomRequestError(body)` (utils.js lines 204-214).
`super(errorObj.message || errorObj.class || 'unknown error')` coerces the
picked value to a string; the `name` branch calls
`errorObj.message.includes(...)`, which throws when a truthy `message` is not
a string. -/
def CustomRequestError (body : JSVal) : Except Unit StructuredError :=
  let errorObj := errorObjOf body
  let message :=
    if (errorObj.get "message").truthy then (errorObj.get "message").display
    else if (errorObj.get "class").truthy then (errorObj.get "class").display
    else "unknown error"
  if (errorObj.get "error").truthy then
    Except.ok { message := message, kind := some (errorObj.get "error") }
  else if (errorObj.get "message").truthy then
    match errorObj.get "message" with
    | JSVal.str s =>
      Except.ok
        { message := message,
          kind :=
            if strContains s "stale element reference" then
              some (JSVal.str "stale element reference")
            else none }
    | _ => Except.error ()   -- includes() on a non-string throws
  else Except.ok { message := message, kind := none }

/-- `getErrorFromResponseBody(body)` (utils.js lines 187-201). -/
def getErrorFromResponseBody (body : JSVal) : Except Unit StructuredError :=
  -- if (!body) return new Error('Response has empty body')
  if !body.truthy then Except.ok { message := "Response has empty body", kind := none }
  else
    match body with
    -- typeof body === 'string' && body.length (non-empty, since body is truthy)
    | JSVal.str s => Except.ok { message := s, kind := none }
    | b =>
      -- if (typeof body !== 'object' || (!body.value && !body.error))
      if !b.isObjLike || (!(b.get "value").truthy && !(b.get "error").truthy) then
        Except.ok { message := "unknown error", kind := none }
      else CustomRequestError b

/-- Modelled from the spec, section 4.3 (`toError`): empty body, string body
and indicator-free bodies map to fixed errors; otherwise a structured error
is built from `body.value` (or `body`): message from `message`, else `class`,
else `"unknown error"`; kind tag from `error`, else
`"stale element reference"` when the `message` field contains that substring,
else unset.  "Present"/"lacking" for the JSON-ish fields is read as
JS-meaningful presence (truthiness). -/
def toErrorSpec (body : JSVal) : StructuredError :=
  if !body.truthy then { message := "Response has empty body", kind := none }
  else
    match body with
    | JSVal.str s => { message := s, kind := none }
    | b =>
      if !b.isObjLike || (!(b.get "value").truthy && !(b.get "error").truthy) then
        { message := "unknown error", kind := none }
      else
        let errorObj := errorObjOf b
        { message :=
            if (errorObj.get "message").truthy then (errorObj.get "message").display
            else if (errorObj.get "class").truthy then (errorObj.get "class").display
            else "unknown error",
          kind :=
            if (errorObj.get "error").truthy then some (errorObj.get "error")
            else
              match errorObj.get "message" with
              | JSVal.str s =>
                if strContains s "stale element reference" then
                  some (JSVal.str "stale element reference")
                else none
              | _ => none }

/-- The `message` field of the selected error object, when truthy, is a
string (as in every driver response, where `message` is the failure
message). -/
def errMsgOk (body : JSVal) : Bool :=
  match (errorObjOf body).get "message" with
  | JSVal.str _ => true
  | m => !m.truthy

/-- `CustomRequestError` agrees with the structured part of the reference
`toError` whenever the selected `message` field is well-formed. -/
theorem customRequestError_eq (body : JSVal) (h : errMsgOk body = true) :
    CustomRequestError body =
      Except.ok
        { message :=
            if ((errorObjOf body).get "message").truthy then
              ((errorObjOf body).get "message").display
            else if ((errorObjOf body).get "class").truthy then
              ((errorObjOf body).get "class").display
            else "unknown error",
          kind :=
            if ((errorObjOf body).get "error").truthy then
              some ((errorObjOf body).get "error")
            else
              match (errorObjOf body).get "message" with
              | JSVal.str s =>
                if strContains s "stale element reference" then
                  some (JSVal.str "stale element reference")
                else none
              | _ => none } := by
  unfold CustomRequestError
  by_cases he : ((errorObjOf body).get "error").truthy = true
  · simp [he]
  · rw [Bool.not_eq_true] at he
    by_cases hmt : ((errorObjOf body).get "message").truthy = true
    · obtain ⟨s, hm⟩ : ∃ s, (errorObjOf body).get "message" = JSVal.str s := by
        unfold errMsgOk at h
        cases hmm : (errorObjOf body).get "message" <;> simp_all [JSVal.truthy]
      have hmt' : (JSVal.str s).truthy = true := by rw [← hm]; exact hmt
      simp [he, hmt, hm, hmt']
    · rw [Bool.not_eq_true] at hmt
      have hmm : (match (errorObjOf body).get "message" with
                  | JSVal.str s =>
                    if strContains s "stale element reference" then
                      some (JSVal.str "stale element reference")
                    else none
                  | _ => (none : Option JSVal)) = none := by
        cases hm : (errorObjOf body).get "message"
        case str s =>
          have hse : s = "" := by
            rw [hm] at hmt
            simpa [JSVal.truthy] using hmt
          subst hse
          rfl
        all_goals rfl
      simp [he, hmt, hmm]

/-- C9: on every response body whose error-object `message` field is
well-formed (a string when truthy), `getErrorFromResponseBody` produces
exactly the reference `toError` mapping of spec section 4.3. -/
theorem c9_error_translation_matches_reference (body : JSVal)
    (h : errMsgOk body = true) :
    getErrorFromResponseBody body = Except.ok (toErrorSpec body) := by
  unfold getErrorFromResponseBody toErrorSpec
  by_cases hb : body.truthy = true
  · cases body with
    | str s => simp [hb]
    | _ =>
      simp only [hb, Bool.not_true, Bool.false_eq_true, if_false]
      split
      · rfl
      · exact customRequestError_eq _ h
  · rw [Bool.not_eq_true] at hb
    simp [hb]

/-- Witness for C9 on a no-such-element error body. -/
theorem c9_error_translation_matches_reference_witness :
    errMsgOk (jobj [("value",
      jobj [("error", JSVal.str "no such element"),
        ("message", JSVal.str "no such element: h1")])]) = true ∧
    getErrorFromResponseBody (jobj [("value",
        jobj [("error", JSVal.str "no such element"),
          ("message", JSVal.str "no such element: h1")])]) =
      Except.ok (toErrorSpec (jobj [("value",
        jobj [("error", JSVal.str "no such element"),
          ("message", JSVal.str "no such element: h1")])])) :=
  ⟨rfl,
    c9_error_translation_matches_reference
      (jobj [("value",
        jobj [("error", JSVal.str "no such element"),
          ("message", JSVal.str "no such element: h1")])]) rfl⟩

/-! ### lodash.merge and the command surface builder (`getPrototype`,
utils.js lines 143-180)

`merge` is `lodash.merge`: a deep, structure-preserving merge that mutates
its destination.  Plain objects are merged key-wise (the destination keeps
its key order, new keys are appended in source order, colliding values are
merged recursively), arrays are merged index-wise, `undefined` source values
keep the destination value, and any other source value replaces the
destination.  The recursion is fuelled: each nesting level consumes one unit
and `lmerge` supplies `jsize s + 1`, which strictly dominates the source
nesting depth, so the fuel never runs out on any input. -/

mutual

/-- Nesting measure of a value: every constructor counts 1 plus its
children. -/
def jsize : JSVal → Nat
  | .obj fields => Nat.succ (jsizeFields fields)
  | .arr elems => Nat.succ (jsizeElems elems)
  | _ => 1

/-- Sum of the sizes of an object's field values. -/
def jsizeFields : List (String × JSVal) → Nat
  | [] => 0
  | (_, v) :: rest => jsize v + jsizeFields rest

/-- Sum of the sizes of an array's elements. -/
def jsizeElems : List JSVal → Nat
  | [] => 0
  | v :: rest => jsize v + jsizeElems rest

end

/-- Merge one source field into a destination field list: a colliding key
keeps its position and gets the recursively merged value, a new key is
appended (JS objects append new keys last). -/
def updateFieldWith (m : JSVal → JSVal → JSVal) :
    List (String × JSVal) → String → JSVal → List (String × JSVal)
  | [], k, v => [(k, v)]
  | (k', o) :: rest, k, v =>
    if k' == k then (k', m o v) :: rest else (k', o) :: updateFieldWith m rest k v

/-- Key-wise object merge: fold the source fields into the destination. -/
def mergeFieldsWith (m : JSVal → JSVal → JSVal) :
    List (String × JSVal) → List (String × JSVal) → List (String × JSVal)
  | d, [] => d
  | d, (k, v) :: rest => mergeFieldsWith m (updateFieldWith m d k v) rest

/-- Index-wise array merge (extra source elements are appended, extra
destination elements are kept). -/
def mergeElemsWith (m : JSVal → JSVal → JSVal) : List JSVal → List JSVal → List JSVal
  | d, [] => d
  | [], s => s
  | d :: ds, s :: ss => m d s :: mergeElemsWith m ds ss

/-- Fuelled lodash.merge of a source value into a destination value. -/
def lmergeF : Nat → JSVal → JSVal → JSVal
  | 0, _, s => s
  | f + 1, d, s =>
    match d, s with
    | d, .undef => d
    | .obj dfs, .obj sfs => .obj (mergeFieldsWith (lmergeF f) dfs sfs)
    | .arr ds, .arr ss => .arr (mergeElemsWith (lmergeF f) ds ss)
    | _, s => s

/-- `lodash.merge(d, s)` as a pure value (the in-place mutation of the
destination is modelled at the call sites of `getPrototype`). -/
def lmerge (d s : JSVal) : JSVal := lmergeF (Nat.succ (jsize s)) d s

/-- The feature flags consumed by `getPrototype`. -/
structure Flags where
  isW3C : Bool
  isChrome : Bool
  isMobile : Bool
  isSauce : Bool
  isSeleniumStandalone : Bool

/-- The named protocol command tables imported from `@wdio/protocols`
(static input data external to this module; each is an object mapping
endpoint templates to objects mapping HTTP methods to command
descriptors). -/
structure ProtocolTables where
  WebDriverProtocol : JSVal
  JsonWProtocol : JSVal
  MJsonWProtocol : JSVal
  AppiumProtocol : JSVal
  ChromiumProtocol : JSVal
  SauceLabsProtocol : JSVal
  SeleniumProtocol : JSVal

/-- The merged `ProtocolCommands` object of `getPrototype` (utils.js lines
145-171): `merge(base, mobile?, chrome?, sauce?, selenium?)`, i.e. a
left-nested chain of two-argument merges, with `{}` for each disabled
layer. -/
def getPrototypeCommands (f : Flags) (t : ProtocolTables) : JSVal :=
  lmerge (lmerge (lmerge (lmerge
    (if f.isMobile then lmerge (lmerge (jobj []) t.JsonWProtocol) t.WebDriverProtocol
     else if f.isW3C then t.WebDriverProtocol else t.JsonWProtocol)
    (if f.isMobile then lmerge (lmerge (jobj []) t.MJsonWProtocol) t.AppiumProtocol
     else jobj []))
    (if f.isChrome then t.ChromiumProtocol else jobj []))
    (if f.isSauce then t.SauceLabsProtocol else jobj []))
    (if f.isSeleniumStandalone then t.SeleniumProtocol else jobj [])

/-- One prototype entry: the `command(method, endpoint, commandData,
isSeleniumStandalone)` binding (the external `command` module is opaque, so
the binding is modelled as its argument tuple). -/
structure CommandBinding where
  method : String
  endpoint : String
  commandData : JSVal
  seleniumFlag : Bool

/-- JS object property assignment `props[k] = v`: an existing key keeps its
position and gets the new value, a new key is appended. -/
def setProp : List (String × CommandBinding) → String → CommandBinding → List (String × CommandBinding)
  | [], k, v => [(k, v)]
  | p :: rest, k, v => if p.1 == k then (k, v) :: rest else p :: setProp rest k v

/-- JS object property lookup (first match; keys are unique). -/
def lookupProp : List (String × CommandBinding) → String → Option CommandBinding
  | [], _ => none
  | p :: rest, k => if p.1 == k then some p.2 else lookupProp rest k

/-- The nested `for ... of Object.entries(...)` loops of `getPrototype`
(utils.js lines 173-177): assign
`prototype[commandData.command] = {value: command(method, endpoint, commandData, isSeleniumStandalone)}`
for every endpoint and method, in enumeration order (the `{value: ...}`
property-descriptor wrapper is elided; the property key is the JS string
coercion of the `command` field). -/
def buildPrototype (pc : JSVal) (flag : Bool) : List (String × CommandBinding) :=
  match pc with
  | JSVal.obj endpoints =>
    endpoints.foldl
      (fun acc p =>
        match p.2 with
        | JSVal.obj methods =>
          methods.foldl
            (fun acc2 q =>
              setProp acc2 (q.2.get "command").display
                { method := q.1, endpoint := p.1, commandData := q.2, seleniumFlag := flag })
            acc
        | _ => acc)
      []
  | _ => []

/-- `getPrototype({isW3C, isChrome, isMobile, isSauce, isSeleniumStandalone})`
(utils.js lines 143-180), paired with the protocol tables after the call:
`lodash.merge` mutates its destination, and in the non-mobile branches the
destination passed on line 151-153 is the named base dialect table itself,
so that table ends up equal to the fully merged `ProtocolCommands`; in the
mobile branch the destination is a fresh `{}` and the named tables are
untouched. -/
def getPrototype (f : Flags) (t : ProtocolTables) :
    List (String × CommandBinding) × ProtocolTables :=
  let pc := getPrototypeCommands f t
  (buildPrototype pc f.isSeleniumStandalone,
   if f.isMobile then t
   else if f.isW3C then { t with WebDriverProtocol := pc }
   else { t with JsonWProtocol := pc })

/-- Modelled from the spec, section 4.4: the reference command-table merge —
the base dialect layer, then, each conditionally and in this order, the
mobile extension layer (mobile-extension and vendor-automation tables), the
vendor-browser layer, the cloud-vendor layer and the grid/standalone layer,
later layers overriding earlier ones on collision; a disabled layer is
simply skipped. -/
def buildSpecCommands (f : Flags) (t : ProtocolTables) : JSVal :=
  let base :=
    if f.isMobile then lmerge (lmerge (jobj []) t.JsonWProtocol) t.WebDriverProtocol
    else if f.isW3C then t.WebDriverProtocol else t.JsonWProtocol
  let s1 :=
    if f.isMobile then
      lmerge base (lmerge (lmerge (jobj []) t.MJsonWProtocol) t.AppiumProtocol)
    else base
  let s2 := if f.isChrome then lmerge s1 t.ChromiumProtocol else s1
  let s3 := if f.isSauce then lmerge s2 t.SauceLabsProtocol else s2
  if f.isSeleniumStandalone then lmerge s3 t.SeleniumProtocol else s3

/-- The flattened `(name, binding)` assignment sequence of the prototype
loops, in enumeration order. -/
def entriesList (pc : JSVal) (flag : Bool) : List (String × CommandBinding) :=
  match pc with
  | JSVal.obj endpoints =>
    endpoints.flatMap
      (fun p =>
        match p.2 with
        | JSVal.obj methods =>
          methods.map
            (fun q =>
              ((q.2.get "command").display,
               { method := q.1, endpoint := p.1, commandData := q.2,
                 seleniumFlag := flag : CommandBinding }))
        | _ => [])
  | _ => []

/-- The last assignment wins: lookup that scans the assignment sequence from
the end. -/
def lookupLast : List (String × CommandBinding) → String → Option CommandBinding
  | [], _ => none
  | p :: rest, k =>
    match lookupLast rest k with
    | some v => some v
    | none => if p.1 == k then some p.2 else none

/-- Whether a value is an object proper. -/
def JSVal.isObj : JSVal → Bool
  | .obj _ => true
  | _ => false

/-- All seven protocol tables are objects (as the real `@wdio/protocols`
tables are). -/
def wfTables (t : ProtocolTables) : Bool :=
  t.WebDriverProtocol.isObj && t.JsonWProtocol.isObj && t.MJsonWProtocol.isObj &&
    t.AppiumProtocol.isObj && t.ChromiumProtocol.isObj && t.SauceLabsProtocol.isObj &&
    t.SeleniumProtocol.isObj

/-- Concrete check of the deep key-wise merge: colliding nested objects are
merged recursively, later values win, new keys are appended. -/
theorem lmerge_deep_example :
    lmerge (jobj [("a", JSVal.num 1), ("n", jobj [("x", JSVal.num 1), ("y", JSVal.num 2)])])
        (jobj [("n", jobj [("y", JSVal.num 9), ("z", JSVal.num 3)]), ("b", JSVal.num 2)]) =
      jobj [("a", JSVal.num 1),
        ("n", jobj [("x", JSVal.num 1), ("y", JSVal.num 9), ("z", JSVal.num 3)]),
        ("b", JSVal.num 2)] := rfl

/-- Concrete check of the index-wise array merge. -/
theorem lmerge_array_example :
    lmerge (jarr [JSVal.num 1, JSVal.num 2, JSVal.num 3]) (jarr [JSVal.num 9]) =
      jarr [JSVal.num 9, JSVal.num 2, JSVal.num 3] := rfl

/-- Merging an empty source object is a no-op on an object destination (a
disabled layer contributes nothing). -/
theorem lmerge_rempty (a : List (String × JSVal)) :
    lmerge (JSVal.obj a) (jobj []) = JSVal.obj a := rfl

/-- Merging two objects yields an object (one unfolding of `lmerge`). -/
theorem lmerge_obj_obj (a b : List (String × JSVal)) :
    lmerge (JSVal.obj a) (JSVal.obj b) =
      JSVal.obj (mergeFieldsWith (lmergeF (Nat.succ (jsizeFields b))) a b) := rfl

/-- Looking a key up after a JS property assignment: the assigned key maps to
the new value, every other key is unaffected. -/
theorem lookupProp_setProp (props : List (String × CommandBinding)) (k k' : String)
    (v : CommandBinding) :
    lookupProp (setProp props k v) k' =
      if k == k' then some v else lookupProp props k' := by
  induction props with
  | nil => simp [setProp, lookupProp]
  | cons p rest ih =>
    by_cases hpk : p.1 = k
    · by_cases hkk : k = k' <;> simp_all [setProp, lookupProp]
    · by_cases hpk' : p.1 = k' <;> by_cases hkk : k = k' <;>
        simp_all [setProp, lookupProp]

/-- Folding a sequence of property assignments: the result of a lookup is
the last assignment to that key, else whatever the accumulator held. -/
theorem foldl_setProp_lookup (entries : List (String × CommandBinding))
    (acc : List (String × CommandBinding)) (k : String) :
    lookupProp (entries.foldl (fun a p => setProp a p.1 p.2) acc) k =
      (match lookupLast entries k with
       | some v => some v
       | none => lookupProp acc k) := by
  induction entries generalizing acc with
  | nil => simp [lookupLast]
  | cons e rest ih =>
    simp only [List.foldl_cons, ih, lookupLast, lookupProp_setProp]
    cases lookupLast rest k with
    | some v => simp
    | none => by_cases he : e.1 == k <;> simp_all

/-- Folding over a flattened list is the nested fold. -/
theorem foldl_flatMap {α β γ : Type} (l : List α) (g : α → List β)
    (step : γ → β → γ) (acc : γ) :
    (l.flatMap g).foldl step acc = l.foldl (fun a x => (g x).foldl step a) acc := by
  induction l generalizing acc with
  | nil => rfl
  | cons e rest ih => simp [List.flatMap_cons, List.foldl_append, ih]

/-- The nested prototype loops equal a single fold of property assignments
over the flattened assignment sequence. -/
theorem buildPrototype_eq (pc : JSVal) (flag : Bool) :
    buildPrototype pc flag =
      (entriesList pc flag).foldl (fun a p => setProp a p.1 p.2) [] := by
  cases pc with
  | obj endpoints =>
    unfold buildPrototype entriesList
    rw [foldl_flatMap]
    refine List.foldl_ext _ _ _ ?_
    intro a p _
    cases p.2 <;> simp [List.foldl_map]
  | _ => rfl

/-- An object-valued `JSVal` is an `obj`. -/
theorem isObj_obj (v : JSVal) (h : v.isObj = true) : ∃ x, v = JSVal.obj x := by
  cases v <;> simp_all [JSVal.isObj]

/-- C3: the merged `ProtocolCommands` equals the layered reference merge of
spec section 4.4 (base dialect layer, then conditionally mobile, vendor
browser, cloud vendor, grid/standalone, in that order, later layers
overriding earlier ones on collision), and looking any command name up in
the built prototype yields the last assignment to that name in enumeration
order (last-merged-wins on command-name collisions). -/
theorem c3_command_surface_layering (f : Flags) (t : ProtocolTables) (name : String)
    (h : wfTables t = true) :
    getPrototypeCommands f t = buildSpecCommands f t ∧
    lookupProp ((getPrototype f t).1) name =
      lookupLast (entriesList (getPrototypeCommands f t) f.isSeleniumStandalone) name := by
  constructor
  · rcases t with ⟨W, J, MJ, AP, CH, SA, SE⟩
    unfold wfTables at h
    simp only [Bool.and_eq_true] at h
    obtain ⟨⟨⟨⟨⟨⟨hW, hJ⟩, hMJ⟩, hAP⟩, hCH⟩, hSA⟩, hSE⟩ := h
    obtain ⟨w, rfl⟩ := isObj_obj W hW
    obtain ⟨j, rfl⟩ := isObj_obj J hJ
    obtain ⟨mj, rfl⟩ := isObj_obj MJ hMJ
    obtain ⟨ap, rfl⟩ := isObj_obj AP hAP
    obtain ⟨ch, rfl⟩ := isObj_obj CH hCH
    obtain ⟨sa, rfl⟩ := isObj_obj SA hSA
    obtain ⟨se, rfl⟩ := isObj_obj SE hSE
    rcases f with ⟨w3c, chrome, mobile, sauce, selenium⟩
    cases w3c <;> cases chrome <;> cases mobile <;> cases sauce <;> cases selenium <;>
      simp [getPrototypeCommands, buildSpecCommands, jobj, lmerge_obj_obj, mergeFieldsWith]
  · rw [show (getPrototype f t).1 =
          buildPrototype (getPrototypeCommands f t) f.isSeleniumStandalone from rfl,
      buildPrototype_eq, foldl_setProp_lookup]
    cases lookupLast (entriesList (getPrototypeCommands f t) f.isSeleniumStandalone) name <;>
      simp [lookupProp]

/-- Small concrete protocol tables used to exercise the builder: a
spec-compliant table, a legacy table and a Chromium vendor table. -/
def sampleTables : ProtocolTables :=
  { WebDriverProtocol :=
      jobj [("/session", jobj [("POST", jobj [("command", JSVal.str "newSession")])])],
    JsonWProtocol :=
      jobj [("/session/:sessionId/url", jobj [("GET", jobj [("command", JSVal.str "getUrl")])])],
    MJsonWProtocol := jobj [],
    AppiumProtocol := jobj [],
    ChromiumProtocol :=
      jobj [("/session/:sessionId/chromium/launch_app",
        jobj [("POST", jobj [("command", JSVal.str "launchChromeApp")])])],
    SauceLabsProtocol := jobj [],
    SeleniumProtocol := jobj [] }

/-- Witness for C3 on the sample tables with the W3C + Chrome flags. -/
theorem c3_command_surface_layering_witness :
    wfTables sampleTables = true ∧
    (getPrototypeCommands
        { isW3C := true, isChrome := true, isMobile := false, isSauce := false,
          isSeleniumStandalone := false } sampleTables =
      buildSpecCommands
        { isW3C := true, isChrome := true, isMobile := false, isSauce := false,
          isSeleniumStandalone := false } sampleTables ∧
    lookupProp
        ((getPrototype
          { isW3C := true, isChrome := true, isMobile := false, isSauce := false,
            isSeleniumStandalone := false } sampleTables).1) "launchChromeApp" =
      lookupLast
        (entriesList
          (getPrototypeCommands
            { isW3C := true, isChrome := true, isMobile := false, isSauce := false,
              isSeleniumStandalone := false } sampleTables) false) "launchChromeApp") :=
  ⟨rfl,
    c3_command_surface_layering
      { isW3C := true, isChrome := true, isMobile := false, isSauce := false,
        isSeleniumStandalone := false } sampleTables "launchChromeApp" rfl⟩

/-- C5 is violated by the code: in the non-mobile branch `getPrototype`
passes the named base dialect table itself as `lodash.merge`'s destination
(utils.js line 153), and `merge` mutates its destination, so after
`getPrototype({isW3C: true, isChrome: true, ...})` the static
`WebDriverProtocol` table has gained the Chromium endpoints.  (The mobile
branch carefully merges into a fresh `{}` on line 152.) -/
theorem c5_base_table_mutated :
    (getPrototype
        { isW3C := true, isChrome := true, isMobile := false, isSauce := false,
          isSeleniumStandalone := false } sampleTables).2.WebDriverProtocol ≠
      sampleTables.WebDriverProtocol ∧
    (sampleTables.WebDriverProtocol.get "/session/:sessionId/chromium/launch_app").isUndef =
      true ∧
    (((getPrototype
        { isW3C := true, isChrome := true, isMobile := false, isSauce := false,
          isSeleniumStandalone := false } sampleTables).2.WebDriverProtocol).get
          "/session/:sessionId/chromium/launch_app").isUndef = false := by
  refine ⟨?_, rfl, rfl⟩
  intro h
  have h2 := congrArg
    (fun v => (JSVal.get v "/session/:sessionId/chromium/launch_app").isUndef) h
  exact absurd h2 (by decide)

/-! ### Concrete test vectors from spec section 8 -/

theorem classify_200_plain : isSuccessfulResponse 200 (jobj [("value", jobj [])]) =
    Except.ok true := rfl

theorem classify_200_plain_ref : classifySpec 200 (jobj [("value", jobj [])]) =
    ResponseOutcome.success := rfl

theorem classify_404_other_error :
    isSuccessfulResponse 404 (jobj [("value", jobj [("error", JSVal.str "boom")])]) =
      Except.ok false := rfl

theorem classify_404_other_error_ref :
    classifySpec 404 (jobj [("value", jobj [("error", JSVal.str "boom")])]) =
      ResponseOutcome.failure := rfl

theorem classify_404_no_such_element_ref :
    classifySpec 404 (jobj [("value", jobj [("error", JSVal.str "no such element")])]) =
      ResponseOutcome.successElementMissing := rfl

theorem classify_status7_element_missing :
    isSuccessfulResponse 500
        (jobj [("status", JSVal.num 7),
          ("value", jobj [("message", JSVal.str "No such element: h1")])]) =
      Except.ok true := rfl

theorem classify_status13_failure :
    isSuccessfulResponse 500
        (jobj [("status", JSVal.num 13), ("value", jobj [("message", JSVal.str "boom")])]) =
      Except.ok false := rfl

theorem classify_missing_body : isSuccessfulResponse 200 JSVal.undef = Except.ok false := rfl

end Webdriver
